import Mathlib

/-! TaskManagerREST: the HTTP handlers of `main.go`

A shallow embedding of the request handlers of `main.go` and of the route table
built by `main`.  The handlers are translated line by line; the pieces they call
but that live outside `main.go` are treated as follows.

* The `taskstore` package is an argument of every handler (`TaskStore σ`): the
  handlers are verified against an arbitrary store over an arbitrary state `σ`.
  Every store method may change the state; each invocation is recorded in a
  call log so that "which methods were called, with which arguments" can be
  stated.
* `mime.ParseMediaType`, `json.Decoder.Decode` and `json.Marshal` on tasks are
  arguments as well (`Stdlib`).
* `strconv.Atoi`, `http.Error`, the `http.ResponseWriter` and `json.Marshal` of
  the one-field struct `ResponseId` are modelled concretely.
* `log.Printf` writes to the process log only and is left out.
-/

namespace TaskManagerREST

/-! ## Data -/

/-- Modelled from the spec: `time.Time`, the due timestamp of a task, is "a calendar
timestamp (date + time + timezone)"; the fields are the calendar fields in the
timestamp's own zone. -/
structure Time where
  year : Int
  month : Int
  day : Int
  hour : Nat
  minute : Nat
  second : Nat
  nanosecond : Nat
  zoneOffset : Int
deriving DecidableEq, Repr

/-- Modelled from the spec: `taskstore.Task`, whose declaration is in the `taskstore`
package.  The spec's data model gives it an id, a text, an ordered sequence of tags
(duplicates kept) and a due timestamp. -/
structure Task where
  Id : Int
  Text : String
  Tags : List String
  Due : Time
deriving DecidableEq, Repr

/-- The local type `RequestTask` of `createTaskHandler`. -/
structure RequestTask where
  Text : String
  Tags : List String
  Due : Time
deriving DecidableEq, Repr

/-- The local type `ResponseId` of `createTaskHandler`. -/
structure ResponseId where
  Id : Int
deriving DecidableEq, Repr

/-! ## `net/http` status codes used by the handlers -/

def StatusOK : Nat := 200

def StatusBadRequest : Nat := 400

def StatusNotFound : Nat := 404

def StatusUnsupportedMediaType : Nat := 415

def StatusInternalServerError : Nat := 500

/-! ## `strconv.Atoi` -/

/-- The value of a decimal digit, `none` for any other character. -/
def digitValue (c : Char) : Option Nat :=
  if 48 ≤ c.toNat ∧ c.toNat ≤ 57 then some (c.toNat - 48) else none

/-- Reads a run of decimal digits, most significant first, onto the accumulator. -/
def parseDigits : List Char → Nat → Option Nat
  | [], acc => some acc
  | c :: cs, acc =>
    match digitValue c with
    | none => none
    | some d => parseDigits cs (acc * 10 + d)

/-- The magnitude part of `strconv.Atoi`: at least one character, all of them digits. -/
def parseMagnitude (cs : List Char) : Option Nat :=
  match cs with
  | [] => none
  | _ :: _ => parseDigits cs 0

/-- The function `strconv.Atoi` for a 64-bit `int`: an optional sign followed by one or
more decimal digits, the value lying in `-2^63 .. 2^63-1`.  `none` stands for a
non-nil error (syntax or range). -/
def Atoi (s : String) : Option Int :=
  match s.data with
  | [] => none
  | c :: cs =>
    if c = '-' then
      match parseMagnitude cs with
      | none => none
      | some n => if n ≤ 2 ^ 63 then some (-(n : Int)) else none
    else if c = '+' then
      match parseMagnitude cs with
      | none => none
      | some n => if n < 2 ^ 63 then some (n : Int) else none
    else
      match parseMagnitude (c :: cs) with
      | none => none
      | some n => if n < 2 ^ 63 then some (n : Int) else none

/-! ## The response writer -/

/-- The response under construction: the header map, the status line once
`WriteHeader` has run (`none` before), and the body written so far. -/
structure ResponseWriter where
  header : List (String × String)
  status : Option Nat
  body : String
deriving DecidableEq, Repr

/-- The writer a handler receives from the server: nothing set, nothing written. -/
def ResponseWriter.fresh : ResponseWriter :=
  { header := [], status := none, body := "" }

/-- The call `w.Header().Get(key)`. -/
def ResponseWriter.headerGet (w : ResponseWriter) (key : String) : Option String :=
  w.header.lookup key

/-- The call `w.Header().Set(key, value)`: replaces the entry of `key`.  The keys the
handlers use are already in canonical MIME form. -/
def ResponseWriter.headerSet (w : ResponseWriter) (key value : String) : ResponseWriter :=
  { w with header := (key, value) :: w.header.filter (fun kv => kv.1 ≠ key) }

/-- The call `w.WriteHeader(code)`: the first call fixes the status, later calls are
ignored. -/
def ResponseWriter.WriteHeader (w : ResponseWriter) (code : Nat) : ResponseWriter :=
  match w.status with
  | none => { w with status := some code }
  | some _ => w

/-- The call `w.Write(b)`: writes the status line with 200 when none was written yet,
then appends to the body. -/
def ResponseWriter.Write (w : ResponseWriter) (b : String) : ResponseWriter :=
  let w1 := w.WriteHeader StatusOK
  { w1 with body := w1.body ++ b }

/-- The status the client receives: the one written, or 200 when the handler returned
without writing any. -/
def ResponseWriter.statusCode (w : ResponseWriter) : Nat :=
  w.status.getD StatusOK

/-- The function `http.Error(w, msg, code)`: plain-text headers, the status, then the
message followed by a line feed. -/
def httpError (w : ResponseWriter) (msg : String) (code : Nat) : ResponseWriter :=
  let w1 := w.headerSet "Content-Type" "text/plain; charset=utf-8"
  let w2 := w1.headerSet "X-Content-Type-Options" "nosniff"
  let w3 := w2.WriteHeader code
  w3.Write (msg ++ "\n")

/-! ## The request -/

/-- The parts of `*http.Request` the handlers read. -/
structure Request where
  path : String
  pathValues : List (String × String)
  header : List (String × String)
  body : String
deriving DecidableEq, Repr

/-- The call `req.PathValue(name)`: the matched wildcard, or the empty string. -/
def Request.PathValue (req : Request) (name : String) : String :=
  (req.pathValues.lookup name).getD ""

/-- The call `req.Header.Get(key)`: the first value of the header, or the empty string. -/
def Request.HeaderGet (req : Request) (key : String) : String :=
  (req.header.lookup key).getD ""

/-! ## The store, as seen from the handlers -/

/-- The methods of `*taskstore.TaskStore` that `main.go` calls, over a store state `σ`.
Every method returns the state it leaves behind; an `error` result is the message
of the Go error. -/
structure TaskStore (σ : Type) where
  CreateTask : σ → String → List String → Time → Int × σ
  GetTask : σ → Int → Except String Task × σ
  GetAllTasks : σ → List Task × σ
  DeleteTask : σ → Int → Option String × σ
  DeleteAllTasks : σ → σ
  GetTasksByTag : σ → String → List Task × σ
  GetTasksByDueDate : σ → Int → Int → Int → List Task × σ

/-- One invocation of a store method, with its arguments. -/
inductive StoreCall where
  | CreateTask (text : String) (tags : List String) (due : Time)
  | GetTask (id : Int)
  | GetAllTasks
  | DeleteTask (id : Int)
  | DeleteAllTasks
  | GetTasksByTag (tag : String)
  | GetTasksByDueDate (year month day : Int)
deriving DecidableEq, Repr

/-- The library functions the handlers call on data whose encoding is outside
`main.go`: `mime.ParseMediaType` (media type only, the handler drops the
parameters), `Decode` of a `json.Decoder` with `DisallowUnknownFields` into a
`RequestTask`, and `json.Marshal` of a task and of a slice of tasks. -/
structure Stdlib where
  ParseMediaType : String → Except String String
  DecodeRequestTask : String → Except String RequestTask
  MarshalTask : Task → Except String String
  MarshalTasks : List Task → Except String String

/-- The function `json.Marshal` on a `ResponseId`: the object with the single key `id`;
it cannot fail. -/
def marshalResponseId (r : ResponseId) : Except String String :=
  .ok ("\x7b\"id\":" ++ toString r.Id ++ "\x7d")

/-- What a handler has done when it returns: the response, the store state, and the
store methods invoked so far, oldest first. -/
structure Exchange (σ : Type) where
  w : ResponseWriter
  store : σ
  calls : List StoreCall

/-- The state in which the server hands a request to a handler. -/
def Exchange.start {σ : Type} (st : σ) : Exchange σ :=
  { w := ResponseWriter.fresh, store := st, calls := [] }

/-- The call `s.store.CreateTask(text, tags, due)`. -/
def Exchange.CreateTask {σ : Type} (S : TaskStore σ) (x : Exchange σ) (text : String)
    (tags : List String) (due : Time) : Int × Exchange σ :=
  let r := S.CreateTask x.store text tags due
  (r.1, { x with store := r.2, calls := x.calls ++ [StoreCall.CreateTask text tags due] })

/-- The call `s.store.GetTask(id)`. -/
def Exchange.GetTask {σ : Type} (S : TaskStore σ) (x : Exchange σ) (id : Int) :
    Except String Task × Exchange σ :=
  let r := S.GetTask x.store id
  (r.1, { x with store := r.2, calls := x.calls ++ [StoreCall.GetTask id] })

/-- The call `s.store.GetAllTasks()`. -/
def Exchange.GetAllTasks {σ : Type} (S : TaskStore σ) (x : Exchange σ) :
    List Task × Exchange σ :=
  let r := S.GetAllTasks x.store
  (r.1, { x with store := r.2, calls := x.calls ++ [StoreCall.GetAllTasks] })

/-- The call `s.store.DeleteTask(id)`; `some msg` is a non-nil error. -/
def Exchange.DeleteTask {σ : Type} (S : TaskStore σ) (x : Exchange σ) (id : Int) :
    Option String × Exchange σ :=
  let r := S.DeleteTask x.store id
  (r.1, { x with store := r.2, calls := x.calls ++ [StoreCall.DeleteTask id] })

/-- The call `s.store.DeleteAllTasks()`. -/
def Exchange.DeleteAllTasks {σ : Type} (S : TaskStore σ) (x : Exchange σ) : Exchange σ :=
  { x with store := S.DeleteAllTasks x.store, calls := x.calls ++ [StoreCall.DeleteAllTasks] }

/-- The call `s.store.GetTasksByTag(tag)`. -/
def Exchange.GetTasksByTag {σ : Type} (S : TaskStore σ) (x : Exchange σ) (tag : String) :
    List Task × Exchange σ :=
  let r := S.GetTasksByTag x.store tag
  (r.1, { x with store := r.2, calls := x.calls ++ [StoreCall.GetTasksByTag tag] })

/-- The call `s.store.GetTasksByDueDate(year, time.Month(month), day)`. -/
def Exchange.GetTasksByDueDate {σ : Type} (S : TaskStore σ) (x : Exchange σ)
    (year month day : Int) : List Task × Exchange σ :=
  let r := S.GetTasksByDueDate x.store year month day
  (r.1, { x with store := r.2, calls := x.calls ++ [StoreCall.GetTasksByDueDate year month day] })

/-! ## The handlers of `main.go` -/

/-- The function `renderJSON(w, v)`; `marshal` is `json.Marshal` at the type of `v`. -/
def renderJSON {α : Type} (marshal : α → Except String String) (w : ResponseWriter) (v : α) :
    ResponseWriter :=
  match marshal v with
  | .error err => httpError w err StatusInternalServerError
  | .ok js => (w.headerSet "Contenet-Type" "application/json").Write js

/-- The method `Server.createTaskHandler`. -/
def createTaskHandler {σ : Type} (S : TaskStore σ) (L : Stdlib) (x : Exchange σ)
    (req : Request) : Exchange σ :=
  let contentType := req.HeaderGet "Content-Type"
  match L.ParseMediaType contentType with
  | .error err => { x with w := httpError x.w err StatusBadRequest }
  | .ok mediatype =>
    if mediatype ≠ "application/json" then
      { x with w := httpError x.w "expect application/json Content-Type"
                      StatusUnsupportedMediaType }
    else
      match L.DecodeRequestTask req.body with
      | .error err => { x with w := httpError x.w err StatusBadRequest }
      | .ok rt =>
        let r := x.CreateTask S rt.Text rt.Tags rt.Due
        { r.2 with w := renderJSON marshalResponseId r.2.w { Id := r.1 } }

/-- The method `Server.getAllTasksHandler`. -/
def getAllTasksHandler {σ : Type} (S : TaskStore σ) (L : Stdlib) (x : Exchange σ)
    (_req : Request) : Exchange σ :=
  let r := x.GetAllTasks S
  { r.2 with w := renderJSON L.MarshalTasks r.2.w r.1 }

/-- The method `Server.deleteAllTasksHandler`. -/
def deleteAllTasksHandler {σ : Type} (S : TaskStore σ) (x : Exchange σ)
    (_req : Request) : Exchange σ :=
  x.DeleteAllTasks S

/-- The method `Server.getTaskHandler`. -/
def getTaskHandler {σ : Type} (S : TaskStore σ) (L : Stdlib) (x : Exchange σ)
    (req : Request) : Exchange σ :=
  match Atoi (req.PathValue "id") with
  | none => { x with w := httpError x.w "invalid id" StatusBadRequest }
  | some id =>
    let r := x.GetTask S id
    match r.1 with
    | .error err => { r.2 with w := httpError r.2.w err StatusBadRequest }
    | .ok task => { r.2 with w := renderJSON L.MarshalTask r.2.w task }

/-- The method `Server.deleteTaskHandler`. -/
def deleteTaskHandler {σ : Type} (S : TaskStore σ) (x : Exchange σ)
    (req : Request) : Exchange σ :=
  match Atoi (req.PathValue "id") with
  | none => { x with w := httpError x.w "invalid id" StatusBadRequest }
  | some id =>
    let r := x.DeleteTask S id
    match r.1 with
    | some err => { r.2 with w := httpError r.2.w err StatusNotFound }
    | none => r.2

/-- The method `Server.tagHandler`. -/
def tagHandler {σ : Type} (S : TaskStore σ) (L : Stdlib) (x : Exchange σ)
    (req : Request) : Exchange σ :=
  let tag := req.PathValue "tag"
  let r := x.GetTasksByTag S tag
  { r.2 with w := renderJSON L.MarshalTasks r.2.w r.1 }

/-- The closure `badRequestError` of `dueHandler`. -/
def badRequestError (w : ResponseWriter) (req : Request) : ResponseWriter :=
  httpError w ("expected /due/<year>/<month>/<day>, got " ++ req.path) StatusBadRequest

/-- The method `Server.dueHandler`; `January` is 1 and `December` is 12. -/
def dueHandler {σ : Type} (S : TaskStore σ) (L : Stdlib) (x : Exchange σ)
    (req : Request) : Exchange σ :=
  match Atoi (req.PathValue "year"), Atoi (req.PathValue "month"),
      Atoi (req.PathValue "day") with
  | some year, some month, some day =>
    if month < 1 ∨ month > 12 then
      { x with w := badRequestError x.w req }
    else
      let r := x.GetTasksByDueDate S year month day
      { r.2 with w := renderJSON L.MarshalTasks r.2.w r.1 }
  | _, _, _ => { x with w := badRequestError x.w req }

/-! ## The route table of `main` -/

/-- The seven handler methods of `Server`. -/
inductive Handler where
  | createTaskHandler
  | getAllTasksHandler
  | deleteAllTasksHandler
  | getTaskHandler
  | deleteTaskHandler
  | tagHandler
  | dueHandler
deriving DecidableEq, Repr

/-- The calls `mux.HandleFunc(pattern, handler)` of `main`, in source order. -/
def mainRoutes : List (String × Handler) :=
  [ ("POST /task/", Handler.createTaskHandler),
    ("GET /task/", Handler.getAllTasksHandler),
    ("DELETE /task/", Handler.deleteAllTasksHandler),
    ("GET /task/{id}/", Handler.getTaskHandler),
    ("DELETE /task/{id}/", Handler.deleteTaskHandler),
    ("GET /tag/{tag}/", Handler.tagHandler),
    ("GET /due/{year}/{month}/{day}/", Handler.dueHandler) ]

/-- The pattern in the comment above a handler definition, for the four handlers that
carry one (`// mux.HandleFunc("...", server.xHandler)`). -/
def commentPattern : Handler → Option String
  | Handler.getTaskHandler => some "GET /task/{id}/"
  | Handler.deleteTaskHandler => some "DELETE /task/{id}/"
  | Handler.tagHandler => some "GET /task/{tag}/"
  | Handler.dueHandler => some "GET /due/{year}/{month}/{day}/"
  | _ => none

/-- The patterns under which `main` registers a handler. -/
def patternsOf (h : Handler) : List String :=
  (mainRoutes.filter (fun r => r.2 = h)).map (fun r => r.1)

/-- Splits a registration pattern at its first blank into method and path. -/
def splitPattern (p : String) : String × String :=
  let cs := p.data
  (String.mk (cs.takeWhile (fun c => c ≠ ' ')),
   String.mk ((cs.dropWhile (fun c => c ≠ ' ')).drop 1))

/-! ## A concrete store and concrete library answers, for evaluating the handlers -/

/-- Modelled from the spec: the state of `taskstore.TaskStore` (the package is not part
of `main.go`): the stored tasks in creation order and the id counter.  The tag and
due-day indexes of the spec are represented by the lookups they answer. -/
structure MemStore where
  tasks : List Task
  nextId : Int
deriving DecidableEq, Repr

/-- Modelled from the spec: `taskstore.New()`, the empty store whose first id is 0. -/
def MemStore.New : MemStore :=
  { tasks := [], nextId := 0 }

/-- Modelled from the spec: the operations of section 4.1 on `MemStore`.  `CreateTask`
assigns the next unused id and always succeeds; `GetTask` and `DeleteTask` fail
with NotFound when the id is absent and then change nothing; `DeleteAllTasks`
clears the store; the two lookups return the tasks carrying the tag, or due on
that calendar day, and the empty sequence when there is none. -/
def memStore : TaskStore MemStore where
  CreateTask st text tags due :=
    (st.nextId,
     { tasks := st.tasks ++ [{ Id := st.nextId, Text := text, Tags := tags, Due := due }],
       nextId := st.nextId + 1 })
  GetTask st id :=
    match st.tasks.find? (fun t => t.Id = id) with
    | some t => (.ok t, st)
    | none => (.error "NotFound", st)
  GetAllTasks st := (st.tasks, st)
  DeleteTask st id :=
    match st.tasks.find? (fun t => t.Id = id) with
    | some _ => (none, { st with tasks := st.tasks.filter (fun t => t.Id ≠ id) })
    | none => (some "NotFound", st)
  DeleteAllTasks st := { st with tasks := [] }
  GetTasksByTag st tag := (st.tasks.filter (fun t => tag ∈ t.Tags), st)
  GetTasksByDueDate st year month day :=
    (st.tasks.filter (fun t => t.Due.year = year ∧ t.Due.month = month ∧ t.Due.day = day), st)

/-- The timestamp `2024-03-01T00:00:00Z`. -/
def march1 : Time :=
  { year := 2024, month := 3, day := 1, hour := 0, minute := 0, second := 0,
    nanosecond := 0, zoneOffset := 0 }

/-- The request body of the spec's scenario task A. -/
def bodyA : String :=
  "\x7b\"text\":\"buy milk\",\"tags\":[\"errand\",\"home\"],\"due\":\"2024-03-01T00:00:00Z\"\x7d"

/-- The task A of the spec's scenario, as decoded from `bodyA`. -/
def requestA : RequestTask :=
  { Text := "buy milk", Tags := ["errand", "home"], Due := march1 }

/-- A table of answers of the library functions, enough for the examples below; an
input outside the table is answered with an error.  Media types: `application/json`
and `text/plain` parse to themselves, the empty header does not parse.  Decoding:
`bodyA` decodes to `requestA`.  Marshalling: the empty list is `[]`. -/
def exampleLib : Stdlib where
  ParseMediaType ct :=
    if ct = "application/json" then .ok "application/json"
    else if ct = "text/plain" then .ok "text/plain"
    else .error "mime: no media type"
  DecodeRequestTask body :=
    if body = bodyA then .ok requestA else .error "unexpected end of JSON input"
  MarshalTask _ := .error "outside the table"
  MarshalTasks ts :=
    match ts with
    | [] => .ok "[]"
    | _ :: _ => .error "outside the table"

/-- A request with the given path wildcards and nothing else. -/
def requestWith (path : String) (pathValues : List (String × String)) : Request :=
  { path := path, pathValues := pathValues, header := [], body := "" }

/-- A `POST /task/` request with the given `Content-Type` and body. -/
def postTask (contentType body : String) : Request :=
  { path := "/task/", pathValues := [], header := [("Content-Type", contentType)], body := body }


/-! ## Basic facts about the response writer -/

theorem httpError_fresh (msg : String) (code : Nat) :
    httpError ResponseWriter.fresh msg code =
      { header := [("X-Content-Type-Options", "nosniff"),
                   ("Content-Type", "text/plain; charset=utf-8")],
        status := some code, body := msg ++ "\n" } := by
  simp [httpError, ResponseWriter.fresh, ResponseWriter.headerSet, ResponseWriter.WriteHeader,
    ResponseWriter.Write]

theorem httpError_fresh_statusCode (msg : String) (code : Nat) :
    (httpError ResponseWriter.fresh msg code).statusCode = code := by
  simp [httpError_fresh, ResponseWriter.statusCode]

theorem httpError_fresh_body (msg : String) (code : Nat) :
    (httpError ResponseWriter.fresh msg code).body = msg ++ "\n" := by
  simp [httpError_fresh]

theorem lookup_filter_ne (key other : String) (hne : other ≠ key)
    (l : List (String × String)) :
    (l.filter (fun kv => kv.1 ≠ key)).lookup other = l.lookup other := by
  induction l with
  | nil => rfl
  | cons kv rest ih =>
    obtain ⟨k, v⟩ := kv
    by_cases hk : k = key
    · subst hk
      have hb : (other == k) = false := by simpa using hne
      simpa [List.filter_cons, List.lookup_cons, hb] using ih
    · by_cases ho : other = k
      · subst ho
        simp [List.filter_cons, List.lookup_cons, hk]
      · have hb : (other == k) = false := by simpa using ho
        simpa [List.filter_cons, List.lookup_cons, hk, hb] using ih

theorem renderJSON_ok {α : Type} (marshal : α → Except String String) (w : ResponseWriter)
    (v : α) (js : String) (h : marshal v = .ok js) :
    renderJSON marshal w v = (w.headerSet "Contenet-Type" "application/json").Write js := by
  simp [renderJSON, h]

theorem renderJSON_error {α : Type} (marshal : α → Except String String) (w : ResponseWriter)
    (v : α) (err : String) (h : marshal v = .error err) :
    renderJSON marshal w v = httpError w err StatusInternalServerError := by
  simp [renderJSON, h]

theorem renderJSON_fresh_ok {α : Type} (marshal : α → Except String String) (v : α)
    (js : String) (h : marshal v = .ok js) :
    renderJSON marshal ResponseWriter.fresh v =
      { header := [("Contenet-Type", "application/json")], status := some 200, body := js } := by
  simp [renderJSON_ok marshal _ v js h, ResponseWriter.fresh, ResponseWriter.headerSet,
    ResponseWriter.WriteHeader, ResponseWriter.Write, StatusOK]

theorem renderJSON_fresh_statusCode {α : Type} (marshal : α → Except String String) (v : α) :
    (renderJSON marshal ResponseWriter.fresh v).statusCode = 200 ∨
    (renderJSON marshal ResponseWriter.fresh v).statusCode = 500 := by
  cases h : marshal v with
  | ok js => left; simp [renderJSON_fresh_ok marshal v js h, ResponseWriter.statusCode]
  | error err =>
    right
    simp [renderJSON_error marshal _ v err h, httpError_fresh_statusCode,
      StatusInternalServerError]


/-! ## The handlers that take an id -/

/-- C1 (what the code does): when the id segment parses and `GetTask` returns an
error, `getTaskHandler` calls `GetTask` once, writes no task JSON (the body is the
error message and a line feed), and answers with status 400, not 404. -/
theorem getTaskHandler_store_error_is_400 {σ : Type} (S : TaskStore σ) (L : Stdlib) (st : σ)
    (req : Request) (n : Int) (err : String)
    (hid : Atoi (req.PathValue "id") = some n)
    (hget : (S.GetTask st n).1 = .error err) :
    (getTaskHandler S L (Exchange.start st) req).calls = [StoreCall.GetTask n] ∧
    (getTaskHandler S L (Exchange.start st) req).w.statusCode = 400 ∧
    (getTaskHandler S L (Exchange.start st) req).w.statusCode ≠ 404 ∧
    (getTaskHandler S L (Exchange.start st) req).w.body = err ++ "\n" := by
  unfold getTaskHandler
  simp only [hid, Exchange.GetTask, Exchange.start, hget]
  simp [httpError_fresh_statusCode, httpError_fresh_body, StatusBadRequest]

/-- The failing input of C1: `GET /task/7/` on the empty store answers 400. -/
theorem getTaskHandler_store_error_is_400_witness :
    Atoi ((requestWith "/task/7/" [("id", "7")]).PathValue "id") = some 7 ∧
    (getTaskHandler memStore exampleLib (Exchange.start MemStore.New)
      (requestWith "/task/7/" [("id", "7")])).w.statusCode = 400 :=
  ⟨by decide,
   (getTaskHandler_store_error_is_400 memStore exampleLib MemStore.New
      (requestWith "/task/7/" [("id", "7")]) 7 "NotFound" (by decide) rfl).2.1⟩

/-- C2: when the id segment parses as `n`, `deleteTaskHandler` calls `DeleteTask` exactly
once, with `n`, and nothing else; the status is 404 exactly when `DeleteTask`
returned an error, the body then being the error message (as `http.Error` writes
it, ended by a line feed); when `DeleteTask` succeeds nothing is written, so the
response is the default 200 with an empty body. -/
theorem deleteTaskHandler_contract {σ : Type} (S : TaskStore σ) (st : σ) (req : Request)
    (n : Int) (hid : Atoi (req.PathValue "id") = some n) :
    (deleteTaskHandler S (Exchange.start st) req).calls = [StoreCall.DeleteTask n] ∧
    (deleteTaskHandler S (Exchange.start st) req).store = (S.DeleteTask st n).2 ∧
    ((deleteTaskHandler S (Exchange.start st) req).w.statusCode = 404 ↔
      ∃ err, (S.DeleteTask st n).1 = some err) ∧
    (∀ err, (S.DeleteTask st n).1 = some err →
      (deleteTaskHandler S (Exchange.start st) req).w.statusCode = 404 ∧
      (deleteTaskHandler S (Exchange.start st) req).w.body = err ++ "\n") ∧
    ((S.DeleteTask st n).1 = none →
      (deleteTaskHandler S (Exchange.start st) req).w = ResponseWriter.fresh ∧
      (deleteTaskHandler S (Exchange.start st) req).w.statusCode = 200 ∧
      (deleteTaskHandler S (Exchange.start st) req).w.body = "") := by
  unfold deleteTaskHandler
  simp only [hid, Exchange.DeleteTask, Exchange.start]
  cases h : (S.DeleteTask st n).1 with
  | none =>
    simp [ResponseWriter.statusCode, ResponseWriter.fresh, StatusOK]
  | some err =>
    simp [httpError_fresh_statusCode, httpError_fresh_body, StatusNotFound]

/-- C2 at `DELETE /task/7/` on the empty store: one `DeleteTask 7`, answered 404 with
the store's message. -/
theorem deleteTaskHandler_contract_witness :
    Atoi ((requestWith "/task/7/" [("id", "7")]).PathValue "id") = some 7 ∧
    (deleteTaskHandler memStore (Exchange.start MemStore.New)
      (requestWith "/task/7/" [("id", "7")])).calls = [StoreCall.DeleteTask 7] ∧
    (deleteTaskHandler memStore (Exchange.start MemStore.New)
      (requestWith "/task/7/" [("id", "7")])).w.statusCode = 404 ∧
    (deleteTaskHandler memStore (Exchange.start MemStore.New)
      (requestWith "/task/7/" [("id", "7")])).w.body = "NotFound\n" :=
  ⟨by decide,
   (deleteTaskHandler_contract memStore MemStore.New
      (requestWith "/task/7/" [("id", "7")]) 7 (by decide)).1,
   (deleteTaskHandler_contract memStore MemStore.New
      (requestWith "/task/7/" [("id", "7")]) 7 (by decide)).2.2.2.1 "NotFound" rfl⟩

/-- C3: when `strconv.Atoi` rejects the id segment, `getTaskHandler` and
`deleteTaskHandler` both answer 400 with the message `invalid id`, invoke no store
method, and leave the store as it was. -/
theorem invalid_id_is_bad_request {σ : Type} (S : TaskStore σ) (L : Stdlib) (st : σ)
    (req : Request) (hid : Atoi (req.PathValue "id") = none) :
    ((getTaskHandler S L (Exchange.start st) req).w =
        httpError ResponseWriter.fresh "invalid id" StatusBadRequest ∧
      (getTaskHandler S L (Exchange.start st) req).w.statusCode = 400 ∧
      (getTaskHandler S L (Exchange.start st) req).w.body = "invalid id\n" ∧
      (getTaskHandler S L (Exchange.start st) req).calls = [] ∧
      (getTaskHandler S L (Exchange.start st) req).store = st) ∧
    ((deleteTaskHandler S (Exchange.start st) req).w =
        httpError ResponseWriter.fresh "invalid id" StatusBadRequest ∧
      (deleteTaskHandler S (Exchange.start st) req).w.statusCode = 400 ∧
      (deleteTaskHandler S (Exchange.start st) req).w.body = "invalid id\n" ∧
      (deleteTaskHandler S (Exchange.start st) req).calls = [] ∧
      (deleteTaskHandler S (Exchange.start st) req).store = st) := by
  unfold getTaskHandler deleteTaskHandler
  simp only [hid, Exchange.start]
  simp [httpError_fresh_statusCode, httpError_fresh_body, StatusBadRequest]

/-- C3 at the id segment `abc`: both handlers answer 400 and call nothing. -/
theorem invalid_id_is_bad_request_witness :
    Atoi ((requestWith "/task/abc/" [("id", "abc")]).PathValue "id") = none ∧
    (getTaskHandler memStore exampleLib (Exchange.start MemStore.New)
      (requestWith "/task/abc/" [("id", "abc")])).w.statusCode = 400 ∧
    (deleteTaskHandler memStore (Exchange.start MemStore.New)
      (requestWith "/task/abc/" [("id", "abc")])).calls = [] :=
  ⟨by decide,
   (invalid_id_is_bad_request memStore exampleLib MemStore.New
      (requestWith "/task/abc/" [("id", "abc")]) (by decide)).1.2.1,
   (invalid_id_is_bad_request memStore exampleLib MemStore.New
      (requestWith "/task/abc/" [("id", "abc")]) (by decide)).2.2.2.2.1⟩

/-! ## Delete all -/

/-- C8: for every request and every store state, `deleteAllTasksHandler` invokes
`DeleteAllTasks` exactly once and no other store method, and writes nothing: the
response is the default 200 with an empty body.  The same holds for a second
request served on the state the first one left. -/
theorem deleteAllTasksHandler_contract {σ : Type} (S : TaskStore σ) (st : σ)
    (req req2 : Request) :
    ((deleteAllTasksHandler S (Exchange.start st) req).calls = [StoreCall.DeleteAllTasks] ∧
      (deleteAllTasksHandler S (Exchange.start st) req).store = S.DeleteAllTasks st ∧
      (deleteAllTasksHandler S (Exchange.start st) req).w = ResponseWriter.fresh ∧
      (deleteAllTasksHandler S (Exchange.start st) req).w.statusCode = 200 ∧
      (deleteAllTasksHandler S (Exchange.start st) req).w.body = "") ∧
    ((deleteAllTasksHandler S
        (Exchange.start (deleteAllTasksHandler S (Exchange.start st) req).store) req2).calls =
        [StoreCall.DeleteAllTasks] ∧
      (deleteAllTasksHandler S
        (Exchange.start (deleteAllTasksHandler S (Exchange.start st) req).store) req2).store =
        S.DeleteAllTasks (S.DeleteAllTasks st) ∧
      (deleteAllTasksHandler S
        (Exchange.start (deleteAllTasksHandler S (Exchange.start st) req).store) req2).w.statusCode
        = 200 ∧
      (deleteAllTasksHandler S
        (Exchange.start (deleteAllTasksHandler S (Exchange.start st) req).store) req2).w.body
        = "") := by
  simp [deleteAllTasksHandler, Exchange.DeleteAllTasks, Exchange.start,
    ResponseWriter.statusCode, ResponseWriter.fresh, StatusOK]


/-! ## Lookups by due date and by tag -/

/-- C4: `dueHandler` answers 400 exactly when one of the year, month, day segments does
not parse or the parsed month is outside 1..12, and then invokes no store method.
Otherwise it calls `GetTasksByDueDate` exactly once with the parsed year, month and
day, whatever the year and the day are, and, the returned sequence being
marshalled to `js`, answers 200 with body `js`. -/
theorem dueHandler_contract {σ : Type} (S : TaskStore σ) (L : Stdlib) (st : σ)
    (req : Request) :
    ((dueHandler S L (Exchange.start st) req).w.statusCode = 400 ↔
      (Atoi (req.PathValue "year") = none ∨ Atoi (req.PathValue "month") = none ∨
        Atoi (req.PathValue "day") = none ∨
        ∃ m, Atoi (req.PathValue "month") = some m ∧ (m < 1 ∨ 12 < m))) ∧
    ((Atoi (req.PathValue "year") = none ∨ Atoi (req.PathValue "month") = none ∨
        Atoi (req.PathValue "day") = none ∨
        ∃ m, Atoi (req.PathValue "month") = some m ∧ (m < 1 ∨ 12 < m)) →
      (dueHandler S L (Exchange.start st) req).calls = [] ∧
      (dueHandler S L (Exchange.start st) req).store = st) ∧
    (∀ y m d, Atoi (req.PathValue "year") = some y → Atoi (req.PathValue "month") = some m →
      Atoi (req.PathValue "day") = some d → 1 ≤ m → m ≤ 12 →
      (dueHandler S L (Exchange.start st) req).calls = [StoreCall.GetTasksByDueDate y m d] ∧
      (dueHandler S L (Exchange.start st) req).store = (S.GetTasksByDueDate st y m d).2 ∧
      ∀ js, L.MarshalTasks (S.GetTasksByDueDate st y m d).1 = .ok js →
        (dueHandler S L (Exchange.start st) req).w.statusCode = 200 ∧
        (dueHandler S L (Exchange.start st) req).w.body = js) := by
  unfold dueHandler
  cases hy : Atoi (req.PathValue "year") with
  | none =>
    simp [Exchange.start, badRequestError, httpError_fresh_statusCode, StatusBadRequest]
  | some y =>
    cases hm : Atoi (req.PathValue "month") with
    | none =>
      simp [Exchange.start, badRequestError, httpError_fresh_statusCode, StatusBadRequest]
    | some m =>
      cases hd : Atoi (req.PathValue "day") with
      | none =>
        simp [Exchange.start, badRequestError, httpError_fresh_statusCode, StatusBadRequest]
      | some d =>
        by_cases hbad : m < 1 ∨ m > 12
        · have hbad2 : m < 1 ∨ 12 < m := hbad
          have hno : ¬ (1 ≤ m ∧ m ≤ 12) := by omega
          simp only [if_pos hbad]
          refine ⟨?_, ?_, ?_⟩
          · simp [Exchange.start, badRequestError, httpError_fresh_statusCode,
              StatusBadRequest, hbad2]
          · intro _
            simp [Exchange.start]
          · intro y2 m2 d2 _ h2 _ h4 h5
            have : m = m2 := by simpa using h2
            subst this
            exact absurd ⟨h4, h5⟩ hno
        · have hin : 1 ≤ m ∧ m ≤ 12 := by omega
          have hbad2 : ¬ (m < 1 ∨ 12 < m) := hbad
          simp only [if_neg hbad]
          refine ⟨?_, ?_, ?_⟩
          · simp only [Exchange.GetTasksByDueDate, Exchange.start]
            constructor
            · intro h400
              rcases renderJSON_fresh_statusCode L.MarshalTasks
                (S.GetTasksByDueDate st y m d).1 with h | h
              · rw [h] at h400; omega
              · rw [h] at h400; omega
            · intro h
              simp [hbad2] at h
          · intro h
            simp [hbad2] at h
          · intro y2 m2 d2 h1 h2 h3 _ _
            have e1 : y = y2 := by simpa using h1
            have e2 : m = m2 := by simpa using h2
            have e3 : d = d2 := by simpa using h3
            subst e1 e2 e3
            simp only [Exchange.GetTasksByDueDate, Exchange.start]
            refine ⟨by simp, trivial, ?_⟩
            intro js hjs
            simp [renderJSON_fresh_ok L.MarshalTasks _ js hjs, ResponseWriter.statusCode]

/-- C4 at `/due/0/12/99/` on the empty store: one `GetTasksByDueDate 0 12 99`, answered
200 with body `[]`. -/
theorem dueHandler_contract_witness :
    (dueHandler memStore exampleLib (Exchange.start MemStore.New)
      (requestWith "/due/0/12/99/" [("year", "0"), ("month", "12"), ("day", "99")])).calls =
      [StoreCall.GetTasksByDueDate 0 12 99] ∧
    (dueHandler memStore exampleLib (Exchange.start MemStore.New)
      (requestWith "/due/0/12/99/" [("year", "0"), ("month", "12"), ("day", "99")])).w.statusCode
      = 200 ∧
    (dueHandler memStore exampleLib (Exchange.start MemStore.New)
      (requestWith "/due/0/12/99/" [("year", "0"), ("month", "12"), ("day", "99")])).w.body
      = "[]" :=
  ⟨((dueHandler_contract memStore exampleLib MemStore.New
      (requestWith "/due/0/12/99/" [("year", "0"), ("month", "12"), ("day", "99")])).2.2
      0 12 99 (by decide) (by decide) (by decide) (by decide) (by decide)).1,
   ((dueHandler_contract memStore exampleLib MemStore.New
      (requestWith "/due/0/12/99/" [("year", "0"), ("month", "12"), ("day", "99")])).2.2
      0 12 99 (by decide) (by decide) (by decide) (by decide) (by decide)).2.2 "[]" rfl⟩

/-- C7: for every tag, `tagHandler` calls `GetTasksByTag` exactly once, with the path's tag
unchanged, and no other store method; the status is never in the 4xx class; and,
the returned sequence being marshalled to `js`, the answer is 200 with body `js`. -/
theorem tagHandler_contract {σ : Type} (S : TaskStore σ) (L : Stdlib) (st : σ)
    (req : Request) :
    (tagHandler S L (Exchange.start st) req).calls =
      [StoreCall.GetTasksByTag (req.PathValue "tag")] ∧
    (tagHandler S L (Exchange.start st) req).store =
      (S.GetTasksByTag st (req.PathValue "tag")).2 ∧
    ¬ (400 ≤ (tagHandler S L (Exchange.start st) req).w.statusCode ∧
        (tagHandler S L (Exchange.start st) req).w.statusCode < 500) ∧
    (∀ js, L.MarshalTasks (S.GetTasksByTag st (req.PathValue "tag")).1 = .ok js →
      (tagHandler S L (Exchange.start st) req).w.statusCode = 200 ∧
      (tagHandler S L (Exchange.start st) req).w.body = js) := by
  unfold tagHandler
  simp only [Exchange.GetTasksByTag, Exchange.start]
  refine ⟨by simp, trivial, ?_, ?_⟩
  · rcases renderJSON_fresh_statusCode L.MarshalTasks
      (S.GetTasksByTag st (req.PathValue "tag")).1 with h | h
    · rw [h]; omega
    · rw [h]; omega
  · intro js hjs
    simp [renderJSON_fresh_ok L.MarshalTasks _ js hjs, ResponseWriter.statusCode]

/-- C7 at the tag `nosuchtag` on the empty store: answered 200 with body `[]`. -/
theorem tagHandler_contract_witness :
    (tagHandler memStore exampleLib (Exchange.start MemStore.New)
      (requestWith "/tag/nosuchtag/" [("tag", "nosuchtag")])).calls =
      [StoreCall.GetTasksByTag "nosuchtag"] ∧
    (tagHandler memStore exampleLib (Exchange.start MemStore.New)
      (requestWith "/tag/nosuchtag/" [("tag", "nosuchtag")])).w.statusCode = 200 ∧
    (tagHandler memStore exampleLib (Exchange.start MemStore.New)
      (requestWith "/tag/nosuchtag/" [("tag", "nosuchtag")])).w.body = "[]" :=
  ⟨(tagHandler_contract memStore exampleLib MemStore.New
      (requestWith "/tag/nosuchtag/" [("tag", "nosuchtag")])).1,
   (tagHandler_contract memStore exampleLib MemStore.New
      (requestWith "/tag/nosuchtag/" [("tag", "nosuchtag")])).2.2.2 "[]" rfl⟩


/-! ## Creating a task -/

/-- C5: `createTaskHandler` invokes `CreateTask` if and only if the `Content-Type` header
parses as a media type, the media type is `application/json`, and the body decodes
into a `RequestTask`; it then invokes it exactly once and invokes nothing else.  In
every other case no store method is invoked and the store is unchanged, the status
being 400 when the header does not parse or the body does not decode, and 415 when
the header parses to another media type. -/
theorem createTaskHandler_gate {σ : Type} (S : TaskStore σ) (L : Stdlib) (st : σ)
    (req : Request) :
    ((∃ t g d, StoreCall.CreateTask t g d ∈ (createTaskHandler S L (Exchange.start st) req).calls) ↔
      ∃ rt, L.ParseMediaType (req.HeaderGet "Content-Type") = .ok "application/json" ∧
        L.DecodeRequestTask req.body = .ok rt) ∧
    (∀ rt, L.ParseMediaType (req.HeaderGet "Content-Type") = .ok "application/json" →
      L.DecodeRequestTask req.body = .ok rt →
      (createTaskHandler S L (Exchange.start st) req).calls =
        [StoreCall.CreateTask rt.Text rt.Tags rt.Due]) ∧
    ((¬ ∃ rt, L.ParseMediaType (req.HeaderGet "Content-Type") = .ok "application/json" ∧
        L.DecodeRequestTask req.body = .ok rt) →
      (createTaskHandler S L (Exchange.start st) req).calls = [] ∧
      (createTaskHandler S L (Exchange.start st) req).store = st ∧
      ((createTaskHandler S L (Exchange.start st) req).w.statusCode = 400 ∨
        (createTaskHandler S L (Exchange.start st) req).w.statusCode = 415)) ∧
    (∀ err, L.ParseMediaType (req.HeaderGet "Content-Type") = .error err →
      (createTaskHandler S L (Exchange.start st) req).w.statusCode = 400) ∧
    (∀ mt, L.ParseMediaType (req.HeaderGet "Content-Type") = .ok mt → mt ≠ "application/json" →
      (createTaskHandler S L (Exchange.start st) req).w.statusCode = 415) ∧
    (∀ err, L.ParseMediaType (req.HeaderGet "Content-Type") = .ok "application/json" →
      L.DecodeRequestTask req.body = .error err →
      (createTaskHandler S L (Exchange.start st) req).w.statusCode = 400) := by
  cases hp : L.ParseMediaType (req.HeaderGet "Content-Type") with
  | error e =>
    simp [createTaskHandler, hp, Exchange.start, httpError_fresh_statusCode, StatusBadRequest]
  | ok mt =>
    by_cases hmt : mt = "application/json"
    · subst hmt
      cases hd : L.DecodeRequestTask req.body with
      | error e =>
        simp [createTaskHandler, hp, hd, Exchange.start, httpError_fresh_statusCode,
          StatusBadRequest]
      | ok rt =>
        simp [createTaskHandler, hp, hd, Exchange.start, Exchange.CreateTask]
    · simp [createTaskHandler, hp, Exchange.start, httpError_fresh_statusCode,
        StatusUnsupportedMediaType, hmt]

/-- C5 at three requests on the empty store: a JSON request with body `bodyA` reaches
`CreateTask` once; a `text/plain` request is answered 415 and an absent
`Content-Type` 400, both without touching the store. -/
theorem createTaskHandler_gate_witness :
    (createTaskHandler memStore exampleLib (Exchange.start MemStore.New)
      (postTask "application/json" bodyA)).calls =
      [StoreCall.CreateTask "buy milk" ["errand", "home"] march1] ∧
    (createTaskHandler memStore exampleLib (Exchange.start MemStore.New)
      (postTask "text/plain" bodyA)).w.statusCode = 415 ∧
    (createTaskHandler memStore exampleLib (Exchange.start MemStore.New)
      (postTask "" bodyA)).w.statusCode = 400 :=
  ⟨(createTaskHandler_gate memStore exampleLib MemStore.New
      (postTask "application/json" bodyA)).2.1 requestA rfl rfl,
   (createTaskHandler_gate memStore exampleLib MemStore.New
      (postTask "text/plain" bodyA)).2.2.2.2.1 "text/plain" rfl (by decide),
   (createTaskHandler_gate memStore exampleLib MemStore.New
      (postTask "" bodyA)).2.2.2.1 "mime: no media type" rfl⟩

/-- C6: for a request that `createTaskHandler` accepts (JSON `Content-Type`, body decoding
to `rt`), the handler calls `CreateTask` with exactly the decoded text, tag list and
due timestamp, and the response body is the JSON object whose only member `id` is
the identifier `CreateTask` returned (status 200). -/
theorem createTaskHandler_accepted {σ : Type} (S : TaskStore σ) (L : Stdlib) (st : σ)
    (req : Request) (rt : RequestTask)
    (hct : L.ParseMediaType (req.HeaderGet "Content-Type") = .ok "application/json")
    (hdec : L.DecodeRequestTask req.body = .ok rt) :
    (createTaskHandler S L (Exchange.start st) req).calls =
      [StoreCall.CreateTask rt.Text rt.Tags rt.Due] ∧
    (createTaskHandler S L (Exchange.start st) req).store =
      (S.CreateTask st rt.Text rt.Tags rt.Due).2 ∧
    (createTaskHandler S L (Exchange.start st) req).w.body =
      "\x7b\"id\":" ++ toString (S.CreateTask st rt.Text rt.Tags rt.Due).1 ++ "\x7d" ∧
    (createTaskHandler S L (Exchange.start st) req).w.statusCode = 200 := by
  simp only [createTaskHandler, hct, hdec, Exchange.CreateTask, Exchange.start]
  simp [renderJSON_fresh_ok marshalResponseId _ _ rfl, ResponseWriter.statusCode]

/-- C6 at the spec's task A on the empty store: `CreateTask` receives the decoded values
and the body is the object with `id` 0. -/
theorem createTaskHandler_accepted_witness :
    (createTaskHandler memStore exampleLib (Exchange.start MemStore.New)
      (postTask "application/json" bodyA)).calls =
      [StoreCall.CreateTask "buy milk" ["errand", "home"] march1] ∧
    (createTaskHandler memStore exampleLib (Exchange.start MemStore.New)
      (postTask "application/json" bodyA)).w.body = "\x7b\"id\":0\x7d" :=
  ⟨(createTaskHandler_accepted memStore exampleLib MemStore.New
      (postTask "application/json" bodyA) requestA rfl rfl).1,
   (createTaskHandler_accepted memStore exampleLib MemStore.New
      (postTask "application/json" bodyA) requestA rfl rfl).2.2.1⟩

/-! ## `renderJSON` -/

/-- C9 (what the code does): when marshalling succeeds `renderJSON` writes exactly the
marshalled bytes and status 200, but the header it sets is `Contenet-Type`; the
`Content-Type` header is left as it was, so on a fresh writer it is absent.  When
marshalling fails the answer is 500 with the error message as body. -/
theorem renderJSON_behaviour {α : Type} (marshal : α → Except String String)
    (w : ResponseWriter) (v : α) :
    (∀ js, marshal v = .ok js →
      (renderJSON marshal w v).headerGet "Content-Type" = w.headerGet "Content-Type" ∧
      (renderJSON marshal w v).headerGet "Contenet-Type" = some "application/json" ∧
      (renderJSON marshal w v).body = w.body ++ js ∧
      (renderJSON marshal ResponseWriter.fresh v).headerGet "Content-Type" = none ∧
      (renderJSON marshal ResponseWriter.fresh v).body = js ∧
      (renderJSON marshal ResponseWriter.fresh v).statusCode = 200) ∧
    (∀ err, marshal v = .error err →
      (renderJSON marshal ResponseWriter.fresh v).statusCode = 500 ∧
      (renderJSON marshal ResponseWriter.fresh v).body = err ++ "\n") := by
  constructor
  · intro js h
    have hlk := lookup_filter_ne "Contenet-Type" "Content-Type" (by decide) w.header
    refine ⟨?_, ?_, ?_, ?_, ?_, ?_⟩
    · rw [renderJSON_ok marshal w v js h]
      cases hs : w.status <;>
        simp [ResponseWriter.headerGet, ResponseWriter.headerSet, ResponseWriter.Write,
          ResponseWriter.WriteHeader, hs, List.lookup_cons] <;>
        simpa using hlk
    · rw [renderJSON_ok marshal w v js h]
      cases hs : w.status <;>
        simp [ResponseWriter.headerGet, ResponseWriter.headerSet, ResponseWriter.Write,
          ResponseWriter.WriteHeader, hs, List.lookup_cons]
    · rw [renderJSON_ok marshal w v js h]
      cases hs : w.status <;>
        simp [ResponseWriter.headerSet, ResponseWriter.Write, ResponseWriter.WriteHeader, hs]
    · simp [renderJSON_fresh_ok marshal v js h, ResponseWriter.headerGet, List.lookup_cons]
    · simp [renderJSON_fresh_ok marshal v js h]
    · simp [renderJSON_fresh_ok marshal v js h, ResponseWriter.statusCode]
  · intro err h
    simp [renderJSON_error marshal _ v err h, httpError_fresh_statusCode,
      httpError_fresh_body, StatusInternalServerError]

/-- The failing input of C9: rendering `ResponseId` 0 on a fresh writer leaves
`Content-Type` unset and sets `Contenet-Type`. -/
theorem renderJSON_behaviour_witness :
    (renderJSON marshalResponseId ResponseWriter.fresh { Id := 0 }).headerGet "Content-Type"
      = none ∧
    (renderJSON marshalResponseId ResponseWriter.fresh { Id := 0 }).headerGet "Contenet-Type"
      = some "application/json" ∧
    (renderJSON marshalResponseId ResponseWriter.fresh { Id := 0 }).body = "\x7b\"id\":0\x7d" :=
  ⟨((renderJSON_behaviour marshalResponseId ResponseWriter.fresh { Id := 0 }).1
      "\x7b\"id\":0\x7d" rfl).2.2.2.1,
   ((renderJSON_behaviour marshalResponseId ResponseWriter.fresh { Id := 0 }).1
      "\x7b\"id\":0\x7d" rfl).2.1,
   ((renderJSON_behaviour marshalResponseId ResponseWriter.fresh { Id := 0 }).1
      "\x7b\"id\":0\x7d" rfl).2.2.2.2.1⟩

/-! ## The route table -/

/-- The route table does not meet the comments: it is not the case that `main` registers
seven pairwise distinct routes with each of `getTaskHandler`, `deleteTaskHandler`,
`tagHandler` and `dueHandler` under the pattern of the comment above it. -/
theorem tagHandler_not_registered_as_commented :
    ¬ (mainRoutes.length = 7 ∧ (mainRoutes.map (fun r => r.1)).Nodup ∧
        ∀ h ∈ [Handler.getTaskHandler, Handler.deleteTaskHandler, Handler.tagHandler,
            Handler.dueHandler],
          ∃ p, commentPattern h = some p ∧ patternsOf h = [p]) := by
  decide

/-- C10 (what the code does): `main` registers exactly seven routes, one for each of the
seven handlers, with pairwise distinct patterns and pairwise distinct (method, path)
pairs, and `getTaskHandler`, `deleteTaskHandler` and `dueHandler` are registered
under exactly the pattern of the comment above them.  The registration of
`tagHandler` breaks the comment above it: the comment states `GET /task/{tag}/`,
`main` registers `GET /tag/{tag}/`. -/
theorem mainRoutes_table :
    mainRoutes.length = 7 ∧
    (mainRoutes.map (fun r => r.1)).Nodup ∧
    (mainRoutes.map (fun r => splitPattern r.1)).Nodup ∧
    (mainRoutes.map (fun r => r.2)).Nodup ∧
    (∀ h : Handler, h ∈ mainRoutes.map (fun r => r.2)) ∧
    (∀ h ∈ [Handler.getTaskHandler, Handler.deleteTaskHandler, Handler.dueHandler],
      ∃ p, commentPattern h = some p ∧ patternsOf h = [p]) ∧
    patternsOf Handler.getTaskHandler = ["GET /task/{id}/"] ∧
    patternsOf Handler.deleteTaskHandler = ["DELETE /task/{id}/"] ∧
    patternsOf Handler.dueHandler = ["GET /due/{year}/{month}/{day}/"] ∧
    patternsOf Handler.tagHandler = ["GET /tag/{tag}/"] ∧
    splitPattern "GET /tag/{tag}/" = ("GET", "/tag/{tag}/") ∧
    commentPattern Handler.tagHandler = some "GET /task/{tag}/" := by
  refine ⟨by decide, by decide, by decide, by decide, ?_, by decide, by decide, by decide,
    by decide, by decide, by decide, by decide⟩
  intro h
  cases h <;> decide

end TaskManagerREST
